import Mathlib

/-!
Verification of the epoch-level training loop
(`pytorch_lightning/loops/epoch_loop.py`, class `EpochLoop`).

The Python class is shallowly embedded as pure functions over explicit
state records.  Python integers are modelled as `Int`; optional integer
configuration values (`min_epochs`, `max_epochs`, `min_steps`, `max_steps`)
are `Option Int`.  Python truthiness of an `Optional[int]` (both `None`
and `0` are falsy) is modelled by explicit matches.  Side effects on
collaborators that the loop only triggers (hooks, logger, profiler,
accelerator, dataloader resets) are recorded as an explicit list of
`Effect` values; mutations of loop or trainer fields are explicit state
passing.
-/

namespace EpochLoopModel

/-- One registered checkpoint callback, as read by
`check_checkpoint_callback` (fields `save_last` and `verbose`). -/
structure CheckpointCallback where
  save_last : Bool
  verbose : Bool
deriving DecidableEq, Repr

/-- Lifecycle hook names passed to `trainer.call_hook` by the epoch loop. -/
inductive HookName where
  | onTrainStart
  | onTrainEnd
  | onEpochStart
  | onTrainEpochStart
deriving DecidableEq, Repr

/-- Observable side effects the epoch loop triggers on its collaborators. -/
inductive Effect where
  /-- `rank_zero_info("Saving latest checkpoint...")` -/
  | savingLatestCheckpointMsg
  /-- `cb.on_validation_end(self.trainer, model)` for one callback -/
  | validationEndHook (cb : CheckpointCallback)
  /-- `self.trainer.call_hook(name)` -/
  | callHook (h : HookName)
  /-- `self.trainer.logger.finalize("success")` -/
  | loggerFinalizeSuccess
  /-- `self.trainer.profiler.describe()` -/
  | profilerDescribe
  /-- `self.trainer.accelerator.on_train_end()` -/
  | acceleratorOnTrainEnd
  /-- `self.trainer.reset_train_dataloader(model)` -/
  | resetTrainDataloader
  /-- `self.trainer.train_dataloader.sampler.set_epoch(epoch)` (best effort) -/
  | setSamplerEpoch (epoch : Int)
  /-- `self.trainer.accumulation_scheduler.on_train_epoch_start(...)` -/
  | accumSchedulerEpochStart
  /-- assignment of a fresh `TensorRunningAccum` to the batch loop -/
  | resetAccumulatedLoss
deriving DecidableEq, Repr

/-- The trainer (Host) state as far as the epoch loop reads or writes it. -/
structure TrainerState where
  /-- `trainer.should_stop` -/
  shouldStop : Bool
  /-- `trainer.reload_dataloaders_every_epoch` -/
  reloadDataloadersEveryEpoch : Bool
  /-- `trainer.checkpoint_connector.has_trained` -/
  hasTrained : Bool
  /-- whether `trainer.logger` is not `None` -/
  loggerPresent : Bool
  /-- whether `trainer._running_stage` is not `None` -/
  runningStageSet : Bool
  /-- `trainer.checkpoint_callbacks` -/
  checkpointCallbacks : List CheckpointCallback
deriving DecidableEq, Repr

/-- The `EpochLoop` state, together with the counters it reads through
from its inner `TrainingLoop` (`global_step`, `min_steps`, `max_steps`)
and the base loop's `iteration_count`. -/
structure EpochLoopState where
  /-- `self._teardown_already_run` -/
  teardownAlreadyRun : Bool
  /-- `self.max_epochs` -/
  maxEpochs : Option Int
  /-- `self.min_epochs` -/
  minEpochs : Option Int
  /-- `self.current_epoch` -/
  currentEpoch : Int
  /-- `self.iteration_count` of the base loop driver -/
  iterationCount : Int
  /-- `self.training_loop.min_steps` -/
  minSteps : Option Int
  /-- `self.training_loop.max_steps` -/
  maxSteps : Option Int
  /-- `self.training_loop.global_step` -/
  globalStep : Int
deriving DecidableEq, Repr

/-- `EpochLoop.__init__(min_epochs, max_epochs, min_steps, max_steps)`:
defaults `max_epochs` to 1000 when both `max_epochs` and `max_steps` are
`None`, defaults `min_epochs` to 1 when both `min_epochs` and `min_steps`
are `None`, starts at epoch 0 with the teardown guard cleared.  The
iteration counter of the base loop and the inner loop's `global_step`
start at 0 (the inner `TrainingLoop` and base `Loop` initialisers; per
the spec both counters are non-negative and count from the run's start). -/
def init (min_epochs max_epochs min_steps max_steps : Option Int) : EpochLoopState :=
  { teardownAlreadyRun := false
    maxEpochs := if max_epochs = none ∧ max_steps = none then some 1000 else max_epochs
    minEpochs := if min_epochs = none ∧ min_steps = none then some 1 else min_epochs
    currentEpoch := 0
    iterationCount := 0
    minSteps := min_steps
    maxSteps := max_steps
    globalStep := 0 }

/-- `stop_steps = self.max_steps and self.max_steps <= self.global_step`.
Python truthiness: `None` and `0` are falsy, so `max_steps = 0` yields a
falsy `stop_steps`. -/
def stop_steps (l : EpochLoopState) : Bool :=
  match l.maxSteps with
  | none => false
  | some m => if m = 0 then false else decide (m ≤ l.globalStep)

/-- `met_min_epochs = (self.current_epoch >= self.min_epochs - 1) if self.min_epochs else True`.
Python truthiness: `min_epochs` equal to `None` or `0` takes the `else True` branch. -/
def met_min_epochs (l : EpochLoopState) : Bool :=
  match l.minEpochs with
  | none => true
  | some m => if m = 0 then true else decide (l.currentEpoch ≥ m - 1)

/-- `met_min_steps = self.global_step >= self.min_steps if self.min_steps else True`.
Python truthiness: `min_steps` equal to `None` or `0` takes the `else True` branch. -/
def met_min_steps (l : EpochLoopState) : Bool :=
  match l.minSteps with
  | none => true
  | some m => if m = 0 then true else decide (l.globalStep ≥ m)

/-- `stop_epochs = self.current_epoch >= self.max_epochs if self.max_epochs is not None else False`.
Note this guard is `is not None`, not truthiness: `max_epochs = 0` is compared. -/
def stop_epochs (l : EpochLoopState) : Bool :=
  match l.maxEpochs with
  | none => false
  | some m => decide (l.currentEpoch ≥ m)

/-- The `done` property.  Returns the boolean result together with the
loop state and trainer state after evaluation: the body's only
assignment is `self.trainer.should_stop = False` on the branch where the
stop signal is set but a minimum-duration floor is unmet. -/
def done (l : EpochLoopState) (t : TrainerState) : Bool × EpochLoopState × TrainerState :=
  let honored := t.shouldStop && (met_min_epochs l && met_min_steps l)
  let t' := if t.shouldStop && !(met_min_epochs l && met_min_steps l)
            then { t with shouldStop := false } else t
  (stop_steps l || honored || stop_epochs l, l, t')

/-- `EpochLoop.check_checkpoint_callback(should_update, is_last=False)`:
no-op unless `should_update` and `trainer.checkpoint_connector.has_trained`;
otherwise emits the latest-checkpoint message when `is_last` and some
callback has both `save_last` and `verbose`, then fires every callback's
`on_validation_end`. -/
def check_checkpoint_callback (t : TrainerState) (should_update : Bool)
    (is_last : Bool := false) : List Effect :=
  if should_update && t.hasTrained then
    (if is_last && t.checkpointCallbacks.any (fun cb => cb.save_last && cb.verbose)
      then [Effect.savingLatestCheckpointMsg] else [])
    ++ t.checkpointCallbacks.map Effect.validationEndHook
  else []

/-- `EpochLoop.on_run_end`: returns immediately when the teardown guard is
set; otherwise sets the guard, brackets the final checkpoint-callback
check between `global_step -= 1` and `global_step += 1`, fires the
`on_train_end` hook, finalizes the logger when present, describes the
profiler, tears down the accelerator, and resets `trainer._running_stage`. -/
def on_run_end (l : EpochLoopState) (t : TrainerState) :
    EpochLoopState × TrainerState × List Effect :=
  if l.teardownAlreadyRun then (l, t, [])
  else
    let l1 := { l with teardownAlreadyRun := true, globalStep := l.globalStep - 1 }
    let ckpt := check_checkpoint_callback t true true
    let l2 := { l1 with globalStep := l1.globalStep + 1 }
    let t' := { t with runningStageSet := false }
    (l2, t',
      ckpt ++ [Effect.callHook HookName.onTrainEnd]
        ++ (if t.loggerPresent then [Effect.loggerFinalizeSuccess] else [])
        ++ [Effect.profilerDescribe, Effect.acceleratorOnTrainEnd])

/-- `EpochLoop.on_advance_start`: computes `epoch = self.iteration_count + 1`,
assigns it to `current_epoch`, resets the train dataloader when
`epoch != 0` and the reload-every-epoch flag is set, then performs the
best-effort sampler seeding, the accumulation-scheduler notification, the
accumulated-loss reset and the two epoch-start hooks. -/
def on_advance_start (l : EpochLoopState) (t : TrainerState) :
    EpochLoopState × List Effect :=
  let epoch := l.iterationCount + 1
  ({ l with currentEpoch := epoch },
    (if decide (epoch ≠ 0) && t.reloadDataloadersEveryEpoch
      then [Effect.resetTrainDataloader] else [])
    ++ [Effect.setSamplerEpoch epoch, Effect.accumSchedulerEpochStart,
        Effect.resetAccumulatedLoss, Effect.callHook HookName.onEpochStart,
        Effect.callHook HookName.onTrainEpochStart])

/-- Modelled from the spec: the base `Loop.run` driver is not part of the
supplied sources (only `EpochLoop` is).  Per the spec's control flow, the
Host repeatedly checks `done`; while it is false it runs
`on_advance_start`, `advance` and `on_advance_end`, incrementing the
internal iteration counter once per epoch; when `done` becomes true it
runs `on_run_end`.  The inner step loop and the collaborators running
during `advance`/`on_advance_end` are opaque here: `env` supplies, per
iteration, the `global_step` value after the epoch's inner work and
whether some collaborator has set the stop signal.  `fuel` bounds the
number of iterations so the driver is total. -/
def runLoop (env : Int → Int × Bool) : Nat → EpochLoopState → TrainerState →
    EpochLoopState × TrainerState
  | 0, l, t => (l, t)
  | Nat.succ fuel, l, t =>
    let r := done l t
    if r.1 then
      let e := on_run_end r.2.1 r.2.2
      (e.1, e.2.1)
    else
      let a := on_advance_start r.2.1 r.2.2
      let step := env a.1.iterationCount
      let l2 := { a.1 with globalStep := step.1, iterationCount := a.1.iterationCount + 1 }
      let t2 := { r.2.2 with shouldStop := step.2 }
      runLoop env fuel l2 t2

/-- Iterate `on_run_end` a given number of times, concatenating the
effects of each invocation. -/
def run_end_times : Nat → EpochLoopState → TrainerState →
    EpochLoopState × TrainerState × List Effect
  | 0, l, t => (l, t, [])
  | Nat.succ n, l, t =>
    let e := on_run_end l t
    let rest := run_end_times n e.1 e.2.1
    (rest.1, rest.2.1, e.2.2 ++ rest.2.2)

end EpochLoopModel

namespace EpochLoopModel

/-! ### Helper lemmas -/

theorem done_fst (l : EpochLoopState) (t : TrainerState) :
    (done l t).1
      = (stop_steps l || (t.shouldStop && (met_min_epochs l && met_min_steps l))
          || stop_epochs l) := rfl

theorem done_loop_state (l : EpochLoopState) (t : TrainerState) :
    (done l t).2.1 = l := rfl

theorem done_trainer_state (l : EpochLoopState) (t : TrainerState) :
    (done l t).2.2
      = if t.shouldStop && !(met_min_epochs l && met_min_steps l)
        then { t with shouldStop := false } else t := rfl

theorem on_run_end_frame (l : EpochLoopState) (t : TrainerState) :
    ((on_run_end l t).1).currentEpoch = l.currentEpoch
    ∧ ((on_run_end l t).1).iterationCount = l.iterationCount
    ∧ ((on_run_end l t).1).maxEpochs = l.maxEpochs := by
  unfold on_run_end
  split <;> simp

theorem on_run_end_guard (l : EpochLoopState) (t : TrainerState) :
    ((on_run_end l t).1).teardownAlreadyRun = true ∨
      (l.teardownAlreadyRun = true ∧ (on_run_end l t).1 = l) := by
  unfold on_run_end
  split
  · exact Or.inr ⟨by assumption, rfl⟩
  · left; simp

theorem on_run_end_noop_of_teardown (l : EpochLoopState) (t : TrainerState)
    (h : l.teardownAlreadyRun = true) : on_run_end l t = (l, t, []) := by
  unfold on_run_end
  simp [h]

theorem on_run_end_teardown_true (l : EpochLoopState) (t : TrainerState) :
    ((on_run_end l t).1).teardownAlreadyRun = true := by
  unfold on_run_end
  split
  · assumption
  · simp

end EpochLoopModel

namespace EpochLoopModel

/-! ### Sample states used by witness theorems -/

def exLoopA : EpochLoopState :=
  { teardownAlreadyRun := false
    maxEpochs := some 4
    minEpochs := some 2
    currentEpoch := 3
    iterationCount := 3
    minSteps := some 2
    maxSteps := some 10
    globalStep := 6 }

def exTrainerA : TrainerState :=
  { shouldStop := false
    reloadDataloadersEveryEpoch := false
    hasTrained := true
    loggerPresent := true
    runningStageSet := true
    checkpointCallbacks := [⟨true, true⟩, ⟨true, true⟩] }

/-! ### Claims -/

/-- Claim C5: for every starting value of `globalStep`, after a completed
call to `on_run_end` the value of `globalStep` equals its value
immediately before the call — the decrement before the final
checkpoint-callback check and the increment after it net to zero. -/
theorem on_run_end_preserves_global_step (l : EpochLoopState) (t : TrainerState) :
    ((on_run_end l t).1).globalStep = l.globalStep := by
  unfold on_run_end
  split
  · rfl
  · simp

/-- Claim C6: at construction, `maxEpochs` defaults to 1000 exactly when
both `maxEpochs` and `maxSteps` are unset, `minEpochs` defaults to 1
exactly when both `minEpochs` and `minSteps` are unset, `currentEpoch`
starts at 0 and the teardown guard starts false. -/
theorem init_defaults (min_epochs max_epochs min_steps max_steps : Option Int) :
    ((max_epochs = none ∧ max_steps = none) →
        (init min_epochs max_epochs min_steps max_steps).maxEpochs = some 1000)
    ∧ (¬ (max_epochs = none ∧ max_steps = none) →
        (init min_epochs max_epochs min_steps max_steps).maxEpochs = max_epochs)
    ∧ ((min_epochs = none ∧ min_steps = none) →
        (init min_epochs max_epochs min_steps max_steps).minEpochs = some 1)
    ∧ (¬ (min_epochs = none ∧ min_steps = none) →
        (init min_epochs max_epochs min_steps max_steps).minEpochs = min_epochs)
    ∧ (init min_epochs max_epochs min_steps max_steps).currentEpoch = 0
    ∧ (init min_epochs max_epochs min_steps max_steps).teardownAlreadyRun = false := by
  refine ⟨fun h => ?_, fun h => ?_, fun h => ?_, fun h => ?_, rfl, rfl⟩ <;>
    simp [init, h]

/-- Witness for claim C6: the defaults fire with everything unset, and a
given `minEpochs` survives when `minSteps` is also given. -/
theorem init_defaults_witness :
    (init none none none none).maxEpochs = some 1000
    ∧ (init (some 5) none (some 3) (some 7)).minEpochs = some 5 := by
  refine ⟨(init_defaults none none none none).1 ⟨rfl, rfl⟩, ?_⟩
  exact (init_defaults (some 5) none (some 3) (some 7)).2.2.2.1 (by simp)

/-- Claim C10: evaluating `done` mutates no loop state — all loop fields
are returned unchanged — and the only trainer mutation it may perform is
clearing `shouldStop` from true to false; every other trainer field is
unchanged. -/
theorem done_frame (l : EpochLoopState) (t : TrainerState) :
    (done l t).2.1 = l
    ∧ ((done l t).2.2.shouldStop = t.shouldStop
        ∨ (t.shouldStop = true ∧ (done l t).2.2.shouldStop = false))
    ∧ (done l t).2.2.reloadDataloadersEveryEpoch = t.reloadDataloadersEveryEpoch
    ∧ (done l t).2.2.hasTrained = t.hasTrained
    ∧ (done l t).2.2.loggerPresent = t.loggerPresent
    ∧ (done l t).2.2.runningStageSet = t.runningStageSet
    ∧ (done l t).2.2.checkpointCallbacks = t.checkpointCallbacks := by
  cases hs : t.shouldStop <;> cases hme : met_min_epochs l <;>
    cases hms : met_min_steps l <;> simp [done, hs, hme, hms]

/-- `run_end_times` is inert from any state whose teardown guard is set. -/
theorem run_end_times_noop (m : Nat) (l : EpochLoopState) (t : TrainerState)
    (h : l.teardownAlreadyRun = true) : run_end_times m l t = (l, t, []) := by
  induction m with
  | zero => rfl
  | succ k ih =>
    unfold run_end_times
    rw [on_run_end_noop_of_teardown l t h]
    simpa using ih

/-- Claim C4: iterating `on_run_end` any positive number of times yields
the same final state and the same accumulated effects as a single call;
the teardown guard transitions false to true on the first call; and a
call from a state with the guard already set is a pure no-op with no
effects. -/
theorem on_run_end_idempotent (n : Nat) (l : EpochLoopState) (t : TrainerState)
    (hn : 1 ≤ n) :
    run_end_times n l t = on_run_end l t
    ∧ (l.teardownAlreadyRun = false → ((on_run_end l t).1).teardownAlreadyRun = true)
    ∧ (l.teardownAlreadyRun = true → on_run_end l t = (l, t, [])) := by
  refine ⟨?_, fun _ => on_run_end_teardown_true l t,
    fun h => on_run_end_noop_of_teardown l t h⟩
  cases n with
  | zero => exact absurd hn (by decide)
  | succ k =>
    unfold run_end_times
    have hrest := run_end_times_noop k (on_run_end l t).1 (on_run_end l t).2.1
      (on_run_end_teardown_true l t)
    simp [hrest]

/-- Witness for claim C4: three consecutive invocations from a fresh
state equal a single invocation. -/
theorem on_run_end_idempotent_witness :
    1 ≤ 3
    ∧ (run_end_times 3 exLoopA exTrainerA = on_run_end exLoopA exTrainerA
        ∧ (exLoopA.teardownAlreadyRun = false →
            ((on_run_end exLoopA exTrainerA).1).teardownAlreadyRun = true)
        ∧ (exLoopA.teardownAlreadyRun = true →
            on_run_end exLoopA exTrainerA = (exLoopA, exTrainerA, []))) :=
  ⟨by decide, on_run_end_idempotent 3 exLoopA exTrainerA (by decide)⟩

end EpochLoopModel

namespace EpochLoopModel

/-- Recognizer for the per-callback validation-end hook effect. -/
def Effect.isValidationEndHook : Effect → Bool
  | Effect.validationEndHook _ => true
  | _ => false

/-- Claim C7: `check_checkpoint_callback` is a no-op when `should_update`
is false or no training has occurred; otherwise the latest-checkpoint
message appears exactly once when `is_last` and some callback has both
`save_last` and `verbose` (never once per callback), and the
validation-end hook fires once per registered callback, in order. -/
theorem check_checkpoint_callback_spec (t : TrainerState) (su il : Bool) :
    (¬ (su = true ∧ t.hasTrained = true) → check_checkpoint_callback t su il = [])
    ∧ (su = true → t.hasTrained = true →
        List.count Effect.savingLatestCheckpointMsg (check_checkpoint_callback t su il)
          = (if il && t.checkpointCallbacks.any (fun cb => cb.save_last && cb.verbose)
              then 1 else 0)
        ∧ List.filter Effect.isValidationEndHook (check_checkpoint_callback t su il)
            = t.checkpointCallbacks.map Effect.validationEndHook) := by
  constructor
  · intro h
    unfold check_checkpoint_callback
    cases hsu : su <;> cases hht : t.hasTrained <;> simp_all
  · intro hsu hht
    have hmap0 : List.count Effect.savingLatestCheckpointMsg
        (t.checkpointCallbacks.map Effect.validationEndHook) = 0 := by
      rw [List.count_eq_zero]
      intro hmem
      rcases List.mem_map.mp hmem with ⟨cb, _, hcb⟩
      exact Effect.noConfusion hcb
    have hfilt : List.filter Effect.isValidationEndHook
        (t.checkpointCallbacks.map Effect.validationEndHook)
          = t.checkpointCallbacks.map Effect.validationEndHook := by
      rw [List.filter_eq_self]
      intro a ha
      rcases List.mem_map.mp ha with ⟨cb, _, hcb⟩
      rw [← hcb]
      rfl
    constructor
    · unfold check_checkpoint_callback
      cases hc : (il && t.checkpointCallbacks.any fun cb => cb.save_last && cb.verbose) <;>
        simp [hsu, hht, hc, hmap0]
    · unfold check_checkpoint_callback
      cases hc : (il && t.checkpointCallbacks.any fun cb => cb.save_last && cb.verbose) <;>
        simp [hsu, hht, hc, hfilt, Effect.isValidationEndHook]

/-- Witness for claim C7: with the same `save_last`, `verbose` callback
registered twice, the message is still counted exactly once and both
hooks fire. -/
theorem check_checkpoint_callback_spec_witness :
    (true = true ∧ exTrainerA.hasTrained = true)
    ∧ List.count Effect.savingLatestCheckpointMsg
        (check_checkpoint_callback exTrainerA true true) = 1
    ∧ List.filter Effect.isValidationEndHook (check_checkpoint_callback exTrainerA true true)
        = exTrainerA.checkpointCallbacks.map Effect.validationEndHook := by
  have h := (check_checkpoint_callback_spec exTrainerA true true).2 rfl rfl
  exact ⟨⟨rfl, rfl⟩, h.1.trans (by decide), h.2⟩

/-- Claim C9: an explicit 0 for `minEpochs` or `minSteps` makes the
corresponding floor behave exactly as if unset (Python truthiness takes
the `else True` branch), so a stop signal at epoch 0 and step 0 with both
floors at 0 is honored immediately. -/
theorem done_zero_min_floor (l : EpochLoopState) (t : TrainerState) :
    (l.minEpochs = some 0 →
        (done l t).1 = (done { l with minEpochs := none } t).1
        ∧ (done l t).2.2 = (done { l with minEpochs := none } t).2.2)
    ∧ (l.minSteps = some 0 →
        (done l t).1 = (done { l with minSteps := none } t).1
        ∧ (done l t).2.2 = (done { l with minSteps := none } t).2.2)
    ∧ (l.minEpochs = some 0 → l.minSteps = some 0 → t.shouldStop = true →
        l.currentEpoch = 0 → l.globalStep = 0 → (done l t).1 = true) := by
  refine ⟨fun h => ?_, fun h => ?_, fun h1 h2 h3 _ _ => ?_⟩
  · constructor <;>
      simp [done, met_min_epochs, met_min_steps, stop_steps, stop_epochs, h]
  · constructor <;>
      simp [done, met_min_epochs, met_min_steps, stop_steps, stop_epochs, h]
  · simp [done, met_min_epochs, met_min_steps, h1, h2, h3]

/-- A loop state with both minimum-duration floors explicitly 0. -/
def exLoopZeroMin : EpochLoopState :=
  { teardownAlreadyRun := false
    maxEpochs := some 10
    minEpochs := some 0
    currentEpoch := 0
    iterationCount := 0
    minSteps := some 0
    maxSteps := none
    globalStep := 0 }

/-- A trainer whose stop signal is set. -/
def cexTrainerStop : TrainerState :=
  { shouldStop := true
    reloadDataloadersEveryEpoch := false
    hasTrained := true
    loggerPresent := false
    runningStageSet := true
    checkpointCallbacks := [] }

/-- Witness for claim C9: both floors explicitly 0, stop signal set at
epoch 0 and step 0, `done` honors the stop immediately. -/
theorem done_zero_min_floor_witness :
    exLoopZeroMin.minEpochs = some 0 ∧ exLoopZeroMin.minSteps = some 0
    ∧ cexTrainerStop.shouldStop = true ∧ exLoopZeroMin.currentEpoch = 0
    ∧ exLoopZeroMin.globalStep = 0
    ∧ (done exLoopZeroMin cexTrainerStop).1 = true :=
  ⟨rfl, rfl, rfl, rfl, rfl,
    (done_zero_min_floor exLoopZeroMin cexTrainerStop).2.2 rfl rfl rfl rfl rfl⟩

end EpochLoopModel

namespace EpochLoopModel

/-- `stop_steps` characterized: it requires a set and nonzero `maxSteps`. -/
theorem stop_steps_eq_true (l : EpochLoopState) :
    stop_steps l = true ↔ ∃ m, l.maxSteps = some m ∧ m ≠ 0 ∧ m ≤ l.globalStep := by
  cases hms : l.maxSteps with
  | none => simp [stop_steps, hms]
  | some m =>
    by_cases hm : m = 0
    · subst hm; simp [stop_steps, hms]
    · simp [stop_steps, hms, hm]

/-- `stop_epochs` characterized: any set `maxEpochs`, zero included. -/
theorem stop_epochs_eq_true (l : EpochLoopState) :
    stop_epochs l = true ↔ ∃ m, l.maxEpochs = some m ∧ m ≤ l.currentEpoch := by
  cases hme : l.maxEpochs <;> simp [stop_epochs, hme]

/-- Loop state with `maxSteps` explicitly 0 while the step counter is
well past it. -/
def cexLoopMaxStepsZero : EpochLoopState :=
  { teardownAlreadyRun := false
    maxEpochs := none
    minEpochs := none
    currentEpoch := 7
    iterationCount := 7
    minSteps := none
    maxSteps := some 0
    globalStep := 5 }

/-- Trainer with no stop signal pending. -/
def cexTrainerNoStop : TrainerState :=
  { shouldStop := false
    reloadDataloadersEveryEpoch := false
    hasTrained := true
    loggerPresent := false
    runningStageSet := true
    checkpointCallbacks := [] }

/-- Counterexample to claim C1 as stated: with `maxSteps` set to 0 (which
is less than or equal to `globalStep = 5`) and no other stop condition,
the claim predicts `done = true`, but `done` evaluates to false — Python
truthiness treats `max_steps = 0` as unset in `stop_steps`. -/
theorem done_maxsteps_zero_cex :
    ¬ (((done cexLoopMaxStepsZero cexTrainerNoStop).1 = true) ↔
        ((cexLoopMaxStepsZero.maxSteps.isSome = true
            ∧ cexLoopMaxStepsZero.maxSteps.getD 0 ≤ cexLoopMaxStepsZero.globalStep)
          ∨ (cexTrainerNoStop.shouldStop = true
              ∧ met_min_epochs cexLoopMaxStepsZero = true
              ∧ met_min_steps cexLoopMaxStepsZero = true)
          ∨ (cexLoopMaxStepsZero.maxEpochs.isSome = true
              ∧ cexLoopMaxStepsZero.maxEpochs.getD 0 ≤ cexLoopMaxStepsZero.currentEpoch))) := by
  decide

/-- Claim C1 (amended): `done` is true iff `maxSteps` is set to a nonzero
value with `maxSteps ≤ globalStep`, or the stop signal is honored, or
`maxEpochs` is set with `currentEpoch ≥ maxEpochs`; in particular any
nonzero `maxSteps ≤ globalStep` forces `done` regardless of
`currentEpoch`. -/
theorem done_characterization (l : EpochLoopState) (t : TrainerState) :
    ((done l t).1 = true ↔
      ((∃ m, l.maxSteps = some m ∧ m ≠ 0 ∧ m ≤ l.globalStep)
        ∨ (t.shouldStop = true ∧ met_min_epochs l = true ∧ met_min_steps l = true)
        ∨ (∃ m, l.maxEpochs = some m ∧ m ≤ l.currentEpoch)))
    ∧ (∀ m : Int, l.maxSteps = some m → m ≠ 0 → m ≤ l.globalStep →
        (done l t).1 = true) := by
  constructor
  · rw [done_fst]
    simp only [Bool.or_eq_true, Bool.and_eq_true, stop_steps_eq_true, stop_epochs_eq_true,
      or_assoc]
  · intro m hm hm0 hle
    rw [done_fst]
    have hss : stop_steps l = true := (stop_steps_eq_true l).mpr ⟨m, hm, hm0, hle⟩
    simp [hss]

/-- Loop state with a nonzero `maxSteps` already reached, at epoch 0. -/
def exLoopB : EpochLoopState :=
  { teardownAlreadyRun := false
    maxEpochs := some 100
    minEpochs := none
    currentEpoch := 0
    iterationCount := 0
    minSteps := none
    maxSteps := some 5
    globalStep := 9 }

/-- Witness for claim C1: `maxSteps = 5 ≤ globalStep = 9` forces `done`
even at epoch 0. -/
theorem done_characterization_witness :
    exLoopB.maxSteps = some 5 ∧ (5 : Int) ≠ 0 ∧ (5 : Int) ≤ exLoopB.globalStep
    ∧ (done exLoopB cexTrainerNoStop).1 = true :=
  ⟨rfl, by decide, by decide,
    (done_characterization exLoopB cexTrainerNoStop).2 5 rfl (by decide) (by decide)⟩

/-- Loop state whose min-steps floor is unmet but whose max-steps bound
is already reached. -/
def cexLoopMinFloor : EpochLoopState :=
  { teardownAlreadyRun := false
    maxEpochs := none
    minEpochs := none
    currentEpoch := 0
    iterationCount := 0
    minSteps := some 5
    maxSteps := some 1
    globalStep := 1 }

/-- Counterexample to claim C2 as stated: the stop signal is set and the
min-steps floor is unmet, so the claim predicts `done` returns false,
yet `done` is true (the max-steps bound fires) even as the signal is
cleared. -/
theorem done_min_floor_cex :
    cexTrainerStop.shouldStop = true
    ∧ met_min_steps cexLoopMinFloor = false
    ∧ (done cexLoopMinFloor cexTrainerStop).2.2.shouldStop = false
    ∧ ¬ ((done cexLoopMinFloor cexTrainerStop).1 = false) := by
  decide

end EpochLoopModel

namespace EpochLoopModel

/-- For non-negative `currentEpoch`, the claim's epoch floor (`minEpochs`
unset or `currentEpoch ≥ minEpochs - 1`) coincides with the code's. -/
theorem met_min_epochs_bridge (l : EpochLoopState) (he : 0 ≤ l.currentEpoch) :
    ((l.minEpochs = none ∨ ∃ m, l.minEpochs = some m ∧ m - 1 ≤ l.currentEpoch)
      ↔ met_min_epochs l = true) := by
  cases hme : l.minEpochs with
  | none => simp [met_min_epochs, hme]
  | some m =>
    by_cases hm : m = 0
    · subst hm
      simp [met_min_epochs, hme]
      omega
    · simp [met_min_epochs, hme, hm, ge_iff_le]

/-- For non-negative `globalStep`, the claim's step floor (`minSteps`
unset or `globalStep ≥ minSteps`) coincides with the code's. -/
theorem met_min_steps_bridge (l : EpochLoopState) (hg : 0 ≤ l.globalStep) :
    ((l.minSteps = none ∨ ∃ m, l.minSteps = some m ∧ m ≤ l.globalStep)
      ↔ met_min_steps l = true) := by
  cases hms : l.minSteps with
  | none => simp [met_min_steps, hms]
  | some m =>
    by_cases hm : m = 0
    · subst hm
      simp [met_min_steps, hms]
      omega
    · simp [met_min_steps, hms, hm, ge_iff_le]

/-- Claim C2 (amended): at a `done` check with the stop signal set, if
both minimum-duration floors are met the stop is honored (`done` is true
and the signal is left set); otherwise the signal is cleared and the
honored-stop disjunct is false, so `done` reduces to the max-steps and
max-epochs bounds alone (it is not necessarily false). -/
theorem done_min_floor (l : EpochLoopState) (t : TrainerState)
    (he : 0 ≤ l.currentEpoch) (hg : 0 ≤ l.globalStep) (hs : t.shouldStop = true) :
    (((l.minEpochs = none ∨ ∃ m, l.minEpochs = some m ∧ m - 1 ≤ l.currentEpoch)
        ∧ (l.minSteps = none ∨ ∃ m, l.minSteps = some m ∧ m ≤ l.globalStep)) →
        (done l t).1 = true ∧ (done l t).2.2.shouldStop = true)
    ∧ (¬ ((l.minEpochs = none ∨ ∃ m, l.minEpochs = some m ∧ m - 1 ≤ l.currentEpoch)
        ∧ (l.minSteps = none ∨ ∃ m, l.minSteps = some m ∧ m ≤ l.globalStep)) →
        (done l t).2.2.shouldStop = false
        ∧ (done l t).1 = (stop_steps l || stop_epochs l)) := by
  constructor
  · rintro ⟨h1, h2⟩
    have hme := (met_min_epochs_bridge l he).mp h1
    have hms := (met_min_steps_bridge l hg).mp h2
    constructor
    · rw [done_fst]; simp [hs, hme, hms]
    · rw [done_trainer_state]; simp [hme, hms, hs]
  · intro hnot
    have hkey : met_min_epochs l = false ∨ met_min_steps l = false := by
      by_contra hc
      push_neg at hc
      exact hnot ⟨(met_min_epochs_bridge l he).mpr (by simpa using hc.1),
        (met_min_steps_bridge l hg).mpr (by simpa using hc.2)⟩
    constructor
    · rw [done_trainer_state]
      rcases hkey with hk | hk <;> simp [hs, hk]
    · rw [done_fst]
      rcases hkey with hk | hk <;> simp [hk]

/-- Witness for claim C2: floors met (`minEpochs = 2` at epoch 3,
`minSteps = 2` at step 6), stop signal honored. -/
theorem done_min_floor_witness :
    (0 : Int) ≤ exLoopA.currentEpoch ∧ (0 : Int) ≤ exLoopA.globalStep
    ∧ cexTrainerStop.shouldStop = true
    ∧ ((exLoopA.minEpochs = none ∨ ∃ m, exLoopA.minEpochs = some m ∧ m - 1 ≤ exLoopA.currentEpoch)
        ∧ (exLoopA.minSteps = none ∨ ∃ m, exLoopA.minSteps = some m ∧ m ≤ exLoopA.globalStep))
    ∧ (done exLoopA cexTrainerStop).1 = true
    ∧ (done exLoopA cexTrainerStop).2.2.shouldStop = true := by
  have hmet : (exLoopA.minEpochs = none
        ∨ ∃ m, exLoopA.minEpochs = some m ∧ m - 1 ≤ exLoopA.currentEpoch)
      ∧ (exLoopA.minSteps = none
        ∨ ∃ m, exLoopA.minSteps = some m ∧ m ≤ exLoopA.globalStep) :=
    ⟨Or.inr ⟨2, rfl, by decide⟩, Or.inr ⟨2, rfl, by decide⟩⟩
  have h := (done_min_floor exLoopA cexTrainerStop (by decide) (by decide) rfl).1 hmet
  exact ⟨by decide, by decide, rfl, hmet, h.1, h.2⟩

/-- Fresh loop state about to run its very first epoch. -/
def cexLoopFirstEpoch : EpochLoopState := init none (some 3) none none

/-- Trainer with the reload-dataloader-every-epoch flag set. -/
def cexTrainerReload : TrainerState :=
  { shouldStop := false
    reloadDataloadersEveryEpoch := true
    hasTrained := false
    loggerPresent := false
    runningStageSet := true
    checkpointCallbacks := [] }

/-- Counterexample to claim C8 as stated: on the very first epoch of the
run (iteration counter 0) with the reload flag set, `on_advance_start`
does ask the Host to rebuild the data source — the guard `epoch != 0`
compares the computed epoch `iteration_count + 1 = 1`, which is never 0,
so the claim's "not the very first epoch" condition does not hold of the
code. -/
theorem on_advance_start_reload_cex :
    cexLoopFirstEpoch.iterationCount = 0
    ∧ cexTrainerReload.reloadDataloadersEveryEpoch = true
    ∧ Effect.resetTrainDataloader ∈ (on_advance_start cexLoopFirstEpoch cexTrainerReload).2 := by
  decide

/-- Claim C8 (amended): the Host is asked to rebuild the training data
source iff the reload flag is set and the computed epoch number
`iterationCount + 1` is nonzero — which holds for every epoch of a run,
the first included, since the iteration counter is non-negative. -/
theorem on_advance_start_reload_iff (l : EpochLoopState) (t : TrainerState) :
    Effect.resetTrainDataloader ∈ (on_advance_start l t).2 ↔
      (t.reloadDataloadersEveryEpoch = true ∧ l.iterationCount + 1 ≠ 0) := by
  by_cases hz : l.iterationCount + 1 = 0 <;> cases hf : t.reloadDataloadersEveryEpoch <;>
    simp [on_advance_start, hz, hf]

end EpochLoopModel

namespace EpochLoopModel

/-- A false `done` result means a set `maxEpochs` strictly bounds
`currentEpoch` from above. -/
theorem current_epoch_lt_of_done_false (l : EpochLoopState) (t : TrainerState)
    (hd : (done l t).1 = false) :
    ∀ M, l.maxEpochs = some M → l.currentEpoch < M := by
  intro M hM
  rw [done_fst] at hd
  have hse : stop_epochs l = false := by
    cases h : stop_epochs l
    · rfl
    · rw [h] at hd; simp at hd
  rw [stop_epochs, hM] at hse
  simpa using hse

/-- Claim C3: starting from any state where `currentEpoch` agrees with
the iteration counter and respects a set `maxEpochs` bound, every state
the run driver can reach (any fuel, any behaviour of the inner loop and
stop-signal environment) has a `currentEpoch` that never decreased and
never exceeds `maxEpochs` when set; moreover each `on_advance_start`
sets `currentEpoch` to the iteration counter plus one. -/
theorem run_loop_epoch_invariant (env : Int → Int × Bool) (fuel : Nat)
    (l : EpochLoopState) (t : TrainerState)
    (hsync : l.currentEpoch = l.iterationCount)
    (hbound : ∀ M, l.maxEpochs = some M → l.currentEpoch ≤ M) :
    l.currentEpoch ≤ ((runLoop env fuel l t).1).currentEpoch
    ∧ ((runLoop env fuel l t).1).currentEpoch = ((runLoop env fuel l t).1).iterationCount
    ∧ ((runLoop env fuel l t).1).maxEpochs = l.maxEpochs
    ∧ (∀ M, l.maxEpochs = some M → ((runLoop env fuel l t).1).currentEpoch ≤ M)
    ∧ (∀ t2, ((on_advance_start l t2).1).currentEpoch = l.iterationCount + 1) := by
  induction fuel generalizing l t with
  | zero => exact ⟨le_refl _, hsync, rfl, hbound, fun t2 => rfl⟩
  | succ k ih =>
    by_cases hd : (done l t).1 = true
    · have hframe := on_run_end_frame (done l t).2.1 (done l t).2.2
      have hre : (runLoop env (k + 1) l t).1
          = (on_run_end (done l t).2.1 (done l t).2.2).1 := by
        simp only [runLoop]
        rw [if_pos hd]
      rw [done_loop_state l t] at hre hframe
      rw [hre]
      refine ⟨le_of_eq hframe.1.symm, ?_, hframe.2.2, ?_, fun t2 => rfl⟩
      · rw [hframe.1, hframe.2.1, hsync]
      · intro M hM
        rw [hframe.1]
        exact hbound M hM
    · have hd' : (done l t).1 = false := by
        cases h : (done l t).1
        · rfl
        · exact absurd h hd
      have hlt := current_epoch_lt_of_done_false l t hd'
      have hrl : runLoop env (k + 1) l t
          = runLoop env k
              { (on_advance_start (done l t).2.1 (done l t).2.2).1 with
                  globalStep := (env ((on_advance_start (done l t).2.1 (done l t).2.2).1.iterationCount)).1
                  iterationCount := (on_advance_start (done l t).2.1 (done l t).2.2).1.iterationCount + 1 }
              { (done l t).2.2 with
                  shouldStop := (env ((on_advance_start (done l t).2.1 (done l t).2.2).1.iterationCount)).2 } := by
        simp only [runLoop]
        rw [if_neg hd]
      rw [done_loop_state l t] at hrl
      set l2 : EpochLoopState :=
        { (on_advance_start l (done l t).2.2).1 with
            globalStep := (env ((on_advance_start l (done l t).2.2).1.iterationCount)).1
            iterationCount := (on_advance_start l (done l t).2.2).1.iterationCount + 1 }
        with hl2
      set t2 : TrainerState :=
        { (done l t).2.2 with
            shouldStop := (env ((on_advance_start l (done l t).2.2).1.iterationCount)).2 }
        with ht2
      have hl2ce : l2.currentEpoch = l.currentEpoch + 1 := by
        rw [hl2]
        show l.iterationCount + 1 = l.currentEpoch + 1
        rw [hsync]
      have hl2ic : l2.iterationCount = l.iterationCount + 1 := rfl
      have hl2me : l2.maxEpochs = l.maxEpochs := rfl
      have hsync2 : l2.currentEpoch = l2.iterationCount := by
        rw [hl2ce, hl2ic, hsync]
      have hbound2 : ∀ M, l2.maxEpochs = some M → l2.currentEpoch ≤ M := by
        intro M hM
        rw [hl2me] at hM
        have := hlt M hM
        rw [hl2ce]
        omega
      have hih := ih l2 t2 hsync2 hbound2
      rw [hrl]
      refine ⟨?_, hih.2.1, hih.2.2.1.trans hl2me, ?_, fun tx => rfl⟩
      · calc l.currentEpoch ≤ l2.currentEpoch := by rw [hl2ce]; omega
          _ ≤ ((runLoop env k l2 t2).1).currentEpoch := hih.1
      · intro M hM
        exact hih.2.2.2.1 M (hl2me.symm ▸ hM)

end EpochLoopModel

namespace EpochLoopModel

/-- Witness for claim C3: a freshly constructed loop with `maxEpochs = 2`
run under a quiescent environment satisfies the epoch invariant. -/
theorem run_loop_epoch_invariant_witness :
    ((init none (some 2) none none).currentEpoch
        = (init none (some 2) none none).iterationCount)
    ∧ (∀ M, (init none (some 2) none none).maxEpochs = some M →
        (init none (some 2) none none).currentEpoch ≤ M)
    ∧ ((init none (some 2) none none).currentEpoch
        ≤ ((runLoop (fun _ => (0, false)) 6 (init none (some 2) none none)
              cexTrainerNoStop).1).currentEpoch
      ∧ ((runLoop (fun _ => (0, false)) 6 (init none (some 2) none none)
              cexTrainerNoStop).1).currentEpoch
          = ((runLoop (fun _ => (0, false)) 6 (init none (some 2) none none)
              cexTrainerNoStop).1).iterationCount
      ∧ ((runLoop (fun _ => (0, false)) 6 (init none (some 2) none none)
              cexTrainerNoStop).1).maxEpochs = (init none (some 2) none none).maxEpochs
      ∧ (∀ M, (init none (some 2) none none).maxEpochs = some M →
          ((runLoop (fun _ => (0, false)) 6 (init none (some 2) none none)
              cexTrainerNoStop).1).currentEpoch ≤ M)
      ∧ (∀ t2, ((on_advance_start (init none (some 2) none none) t2).1).currentEpoch
          = (init none (some 2) none none).iterationCount + 1)) := by
  have hb : ∀ M, (init none (some 2) none none).maxEpochs = some M →
      (init none (some 2) none none).currentEpoch ≤ M := by
    intro M hM
    simp [init] at hM
    simp [init]
    omega
  exact ⟨rfl, hb, run_loop_epoch_invariant (fun _ => (0, false)) 6
    (init none (some 2) none none) cexTrainerNoStop rfl hb⟩

end EpochLoopModel
